import Mathlib

/-!
Shallow embedding of the wealth-planner core (`src/app.py`): the cleaning and
tagging pipeline (`get_cleaned_data`), the per-goal strategy branching and
candidate ranking, the diversification selection loop over `used_funds` and
`curr_amcs`, the SIP contribution formula, and the historical SIP backtest
(`get_sip_history`).  Numeric values are embedded as exact rationals; pandas
string containment is embedded as substring search on lower-cased character
lists; pandas `sort_values` is embedded as a sort by the corresponding key.
-/

/-- Characters of `s` lower-cased, the embedding of Python `s.lower()`. -/
def lowerName (s : String) : List Char := s.toList.map Char.toLower

/-- Boolean test that `needle` is a prefix of `hay`. -/
def listStartsWith : List Char → List Char → Bool
  | _, [] => true
  | [], _ :: _ => false
  | a :: as, b :: bs => a == b && listStartsWith as bs

/-- Boolean substring test, the embedding of Python `needle in hay`. -/
def listHasSub (hay needle : List Char) : Bool :=
  match hay with
  | [] => needle.isEmpty
  | _ :: t => listStartsWith hay needle || listHasSub t needle

/-- Test that the lower-cased name contains the keyword, the embedding of
pandas `.str.lower().str.contains(kw)` for a literal keyword. -/
def hasWord (s : String) (kw : String) : Bool := listHasSub (lowerName s) kw.toList

/-- First whitespace-delimited token of a string, the embedding of Python
`s.split()[0]` (the sponsor / AMC token of a fund name). -/
def firstToken (s : String) : List Char :=
  (s.toList.dropWhile (fun c => c.isWhitespace)).takeWhile (fun c => !c.isWhitespace)

/-- One row of the fund universe (columns of `universe_data.csv`). -/
structure Fund where
  code : String
  name : String
  category : String
  risk_grade : String
  std_dev : ℚ
  freq_score : ℚ
  avg_return : ℚ
deriving DecidableEq, Repr

/-- Defunct-scheme denylist, from `get_cleaned_data` in `src/app.py`. -/
def zombies : List String :=
  ["reliance", "fixed tenure", "dual advantage", "capital protection",
   "interval", "quarterly", "series"]

/-- Risky-sector keywords, from `get_cleaned_data` in `src/app.py`. -/
def risky_keywords : List String :=
  ["sector", "thematic", "international", "global", "gold", "commodity",
   "psu", "infra", "tech"]

/-- Row is dropped by the share-class filter (name contains bonus or dividend). -/
def isShareClassDrop (f : Fund) : Bool := hasWord f.name "bonus" || hasWord f.name "dividend"

/-- Row is dropped by the defunct-scheme denylist. -/
def isZombie (f : Fund) : Bool := zombies.any (fun z => hasWord f.name z)

/-- Safety tag, the embedding of the row-wise `is_safe` in `get_cleaned_data`. -/
def is_safe (f : Fund) : Bool :=
  if f.category == "Equity" then !(risky_keywords.any (fun k => hasWord f.name k))
  else true

/-- Cleaning pipeline of `get_cleaned_data`: drop bonus/dividend share classes,
then drop denylisted defunct schemes.  The `Is_Safe` column is the derived
function `is_safe` on the surviving rows. -/
def get_cleaned_data (raw : List Fund) : List Fund :=
  (raw.filter (fun f => !(isShareClassDrop f))).filter (fun f => !(isZombie f))

/-- Conservative candidate filter (horizon at most 3), from the tab-1 loop. -/
def conservativeFilter (f : Fund) : Bool :=
  f.category == "Safe_Debt" || (decide (f.std_dev < 3) && !(hasWord f.name "equity"))

/-- Balanced candidate filter (horizon 4 to 7), from the tab-1 loop. -/
def balancedFilter (f : Fund) : Bool :=
  is_safe f && f.risk_grade != "High" &&
    (hasWord f.name "hybrid" || hasWord f.name "large" ||
     hasWord f.name "balanced" || hasWord f.name "bluechip")

/-- Aggressive candidate filter (horizon at least 8), from the tab-1 loop. -/
def aggressiveFilter (f : Fund) : Bool :=
  is_safe f && f.category == "Equity" &&
    !(hasWord f.name "debt" || hasWord f.name "bond" || hasWord f.name "income")

/-- Sort key of the Conservative branch: `Std_Dev` ascending. -/
def stdLe (a b : Fund) : Prop := a.std_dev ≤ b.std_dev

/-- Sort key of the Balanced branch: `Freq_Score` descending. -/
def freqGe (a b : Fund) : Prop := b.freq_score ≤ a.freq_score

/-- Sort key of the Aggressive branch: `Freq_Score` descending with
`Avg_Return` descending breaking ties. -/
def freqAvgGe (a b : Fund) : Prop :=
  b.freq_score < a.freq_score ∨ (a.freq_score = b.freq_score ∧ b.avg_return ≤ a.avg_return)

instance : DecidableRel stdLe :=
  fun a b => inferInstanceAs (Decidable (a.std_dev ≤ b.std_dev))

instance : IsTotal Fund stdLe := ⟨fun a b => le_total a.std_dev b.std_dev⟩

instance : IsTrans Fund stdLe := ⟨fun _ _ _ h h2 => le_trans h h2⟩

instance : DecidableRel freqGe :=
  fun a b => inferInstanceAs (Decidable (b.freq_score ≤ a.freq_score))

instance : IsTotal Fund freqGe := ⟨fun a b => le_total b.freq_score a.freq_score⟩

instance : IsTrans Fund freqGe := ⟨fun _ _ _ h h2 => le_trans h2 h⟩

instance : DecidableRel freqAvgGe :=
  fun a b => inferInstanceAs (Decidable (_ ∨ _))

instance : IsTotal Fund freqAvgGe := by
  constructor
  intro a b
  rcases lt_trichotomy a.freq_score b.freq_score with h | h | h
  · exact Or.inr (Or.inl h)
  · rcases le_total b.avg_return a.avg_return with h2 | h2
    · exact Or.inl (Or.inr ⟨h, h2⟩)
    · exact Or.inr (Or.inr ⟨h.symm, h2⟩)
  · exact Or.inl (Or.inl h)

instance : IsTrans Fund freqAvgGe := by
  constructor
  intro a b c hab hbc
  rcases hab with h1 | ⟨h1, h1'⟩
  · rcases hbc with h2 | ⟨h2, _⟩
    · exact Or.inl (lt_trans h2 h1)
    · exact Or.inl (h2 ▸ h1)
  · rcases hbc with h2 | ⟨h2, h2'⟩
    · exact Or.inl (h1 ▸ h2)
    · exact Or.inr ⟨h1.trans h2, le_trans h2' h1'⟩

/-- Strategy label and assumed annual return per horizon bucket, from the
`if current_yrs <= 3 / elif current_yrs <= 7 / else` branching in tab 1. -/
def strategyOf (yrs : Nat) : String × ℚ :=
  if yrs ≤ 3 then ("Conservative (Safe Debt)", 7)
  else if yrs ≤ 7 then ("Balanced (Hybrid/Large Cap)", 10)
  else ("Aggressive (Wealth Equity)", 13)

/-- Ranked candidate list per horizon bucket: the filtered universe sorted by
the branch's key, embedding the three `candidates = df[...].sort_values(...)`
assignments. -/
def candidatesOf (df : List Fund) (yrs : Nat) : List Fund :=
  if yrs ≤ 3 then List.insertionSort stdLe (df.filter conservativeFilter)
  else if yrs ≤ 7 then List.insertionSort freqGe (df.filter balancedFilter)
  else List.insertionSort freqAvgGe (df.filter aggressiveFilter)

/-- Sponsor (AMC) token of a fund: first word of its name. -/
def sponsor (f : Fund) : List Char := firstToken f.name

/-- Diversification loop of tab 1: scan ranked candidates, stop at two picks,
accept a fund iff its code is not in `used` (global) and its sponsor token is
not in `amcs` (per-goal); on acceptance append to the picks, the global used
list and the per-goal sponsor list.  Returns the picks and the updated global
used list. -/
def selectFunds : List Fund → List String → List Fund → List (List Char) →
    List Fund × List String
  | [], used, recs, _ => (recs, used)
  | f :: rest, used, recs, amcs =>
    if 2 ≤ recs.length then (recs, used)
    else if f.code ∉ used ∧ sponsor f ∉ amcs then
      selectFunds rest (used ++ [f.code]) (recs ++ [f]) (amcs ++ [sponsor f])
    else selectFunds rest used recs amcs

/-- One user goal: name, target amount (rupees) and horizon (years). -/
structure Goal where
  gname : String
  target : ℚ
  yrs : Nat
deriving DecidableEq, Repr

/-- Per-goal output of the planning loop. -/
structure RecommendationSet where
  strategy_label : String
  assumed_annual_return : ℚ
  required_contribution : ℚ
  invested : ℚ
  est_gain : ℚ
  selected_funds : List Fund
  estimated_tax : ℚ
deriving Repr

/-- SIP contribution formula of tab 1: `sip = target * r / ((1+r)**n - 1)`,
with no special case for `r = 0`. -/
def sipOf (target r : ℚ) (n : Nat) : ℚ := target * r / ((1 + r) ^ n - 1)

/-- Modelled from the spec: the tax-estimate step of the Contribution Solver
(spec section 4.4) is absent from the `src/app.py` revision, which computes
only `total_invested` and `est_gain`; this definition follows the spec's
words: `gains = target - contribution * n`, and the tax is
`(gains - 125000) * 0.125` when `gains > 125000`, else `0`. -/
def estimatedTax (target contribution : ℚ) (n : Nat) : ℚ :=
  if 125000 < target - contribution * (n : ℚ) then
    (target - contribution * (n : ℚ) - 125000) * 0.125
  else 0

/-- One iteration of the per-goal planning loop: strategy branch, contribution
solve, projection figures, and the diversification selection threaded through
the global `used` list. -/
def planGoal (df : List Fund) (used : List String) (g : Goal) :
    RecommendationSet × List String :=
  let s := strategyOf g.yrs
  let r := s.2 / 1200
  let n := g.yrs * 12
  let sip := sipOf g.target r n
  let sel := selectFunds (candidatesOf df g.yrs) used [] []
  ({ strategy_label := s.1
     assumed_annual_return := s.2
     required_contribution := sip
     invested := sip * (n : ℚ)
     est_gain := g.target - sip * (n : ℚ)
     selected_funds := sel.1
     estimated_tax := estimatedTax g.target sip n }, sel.2)

/-- Planning pass over the ordered goal list, threading the global used list. -/
def planRunAux (df : List Fund) : List Goal → List String →
    List RecommendationSet × List String
  | [], used => ([], used)
  | g :: gs, used =>
    let p := planGoal df used g
    let q := planRunAux df gs p.2
    (p.1 :: q.1, q.2)

/-- Full planning run: `used_funds` starts empty, one result per goal in order. -/
def planRun (df : List Fund) (goals : List Goal) : List RecommendationSet :=
  (planRunAux df goals []).1

/-- One dated NAV observation of the historical price series. -/
structure NavObs where
  date : Int
  nav : ℚ
deriving DecidableEq, Repr

/-- Date order on NAV observations. -/
def dateLe (a b : NavObs) : Prop := a.date ≤ b.date

instance : DecidableRel dateLe :=
  fun a b => inferInstanceAs (Decidable (a.date ≤ b.date))

instance : IsTotal NavObs dateLe := ⟨fun a b => le_total a.date b.date⟩

instance : IsTrans NavObs dateLe := ⟨fun _ _ _ h h2 => le_trans h h2⟩

/-- Calendar month of a day index (fixed-length months in the embedding). -/
def monthOf (d : Int) : Int := d / 30

/-- Price series sorted ascending by date (`nav_df.sort_values('date')`). -/
def sortedNav (data : List NavObs) : List NavObs := List.insertionSort dateLe data

/-- Filtered window: sorted observations on/after `today - years*365` days
(`nav_df = nav_df[nav_df['date'] >= start_date]`). -/
def windowNav (data : List NavObs) (years : Nat) (today : Int) : List NavObs :=
  (sortedNav data).filter (fun o => decide (today - years * 365 ≤ o.date))

/-- Monthly resample taking the first observation of each month present
(`nav_df.resample('MS').first().dropna()` on the date-sorted window). -/
def resampleFirst : List NavObs → List NavObs
  | [] => []
  | o :: rest =>
    o :: resampleFirst (rest.dropWhile (fun p => monthOf p.date == monthOf o.date))
termination_by l => l.length
decreasing_by
simp only [List.length_cons]
exact Nat.lt_succ_of_le ((List.dropWhile_sublist _).length_le)

/-- Monthly purchase loop of `get_sip_history`: accumulated units and invested. -/
def simLoop (amt : ℚ) (navs : List NavObs) : ℚ × ℚ :=
  navs.foldl (fun acc o => (acc.1 + amt / o.nav, acc.2 + amt)) (0, 0)

/-- Backtest `get_sip_history`: `none` embeds every path on which the Python
function returns `None` (empty source data; empty filtered window, where
`iloc[-1]` raises and the bare `except` returns `None`; zero invested, where
the percent-return division raises and the bare `except` returns `None`). -/
def get_sip_history (data : List NavObs) (monthly_amt : ℚ) (years : Nat)
    (today : Int) : Option (ℚ × ℚ × ℚ × ℚ) :=
  if data = [] then none
  else
    let w := windowNav data years today
    let acc := simLoop monthly_amt (resampleFirst w)
    match w.getLast? with
    | none => none
    | some lastObs =>
      if acc.2 = 0 then none
      else
        let current := acc.1 * lastObs.nav
        some (acc.2, current, current - acc.2, (current / acc.2 - 1) * 100)

/-- Sponsor diversity relation: two funds with distinct sponsor tokens. -/
def sponsorNe (f g : Fund) : Prop := sponsor f ≠ sponsor g

/-- Cross-goal exclusion relation: no fund code shared by two goals' picks. -/
def codesDisjoint (r s : RecommendationSet) : Prop :=
  ∀ f ∈ r.selected_funds, ∀ g ∈ s.selected_funds, f.code ≠ g.code

/-- Conservative candidate filter as the spec's table words it. -/
def specConservative (f : Fund) : Prop :=
  f.category = "Safe_Debt" ∨ (f.std_dev < 3 ∧ hasWord f.name "equity" = false)

/-- Balanced candidate filter as the spec's table words it. -/
def specBalanced (f : Fund) : Prop :=
  is_safe f = true ∧ f.risk_grade ≠ "High" ∧
    (hasWord f.name "hybrid" = true ∨ hasWord f.name "large" = true ∨
     hasWord f.name "balanced" = true ∨ hasWord f.name "bluechip" = true)

/-- Aggressive candidate filter as the spec's table words it. -/
def specAggressive (f : Fund) : Prop :=
  is_safe f = true ∧ f.category = "Equity" ∧
    hasWord f.name "debt" = false ∧ hasWord f.name "bond" = false ∧
    hasWord f.name "income" = false

/-- Spec row for horizons of at most 3 years: label, return, candidate set and
sort key. -/
def conservativePolicy (yrs : Nat) (df : List Fund) : Prop :=
  strategyOf yrs = ("Conservative (Safe Debt)", 7) ∧
  (∀ f, f ∈ candidatesOf df yrs ↔ f ∈ df ∧ specConservative f) ∧
  (candidatesOf df yrs).Sorted stdLe

/-- Spec row for horizons of 4 to 7 years: label, return, candidate set and
sort key. -/
def balancedPolicy (yrs : Nat) (df : List Fund) : Prop :=
  strategyOf yrs = ("Balanced (Hybrid/Large Cap)", 10) ∧
  (∀ f, f ∈ candidatesOf df yrs ↔ f ∈ df ∧ specBalanced f) ∧
  (candidatesOf df yrs).Sorted freqGe

/-- Spec row for horizons of at least 8 years: label, return, candidate set
and sort key. -/
def aggressivePolicy (yrs : Nat) (df : List Fund) : Prop :=
  strategyOf yrs = ("Aggressive (Wealth Equity)", 13) ∧
  (∀ f, f ∈ candidatesOf df yrs ↔ f ∈ df ∧ specAggressive f) ∧
  (candidatesOf df yrs).Sorted freqAvgGe

/-- Monthly resample of the filtered window, as `get_sip_history` builds it. -/
def monthlyNav (data : List NavObs) (years : Nat) (today : Int) : List NavObs :=
  resampleFirst (windowNav data years today)

/-- Accumulated units of the backtest purchase loop. -/
def unitsOf (amt : ℚ) (data : List NavObs) (years : Nat) (today : Int) : ℚ :=
  (simLoop amt (monthlyNav data years today)).1

/-- Accumulated invested amount of the backtest purchase loop. -/
def investedOf (amt : ℚ) (data : List NavObs) (years : Nat) (today : Int) : ℚ :=
  (simLoop amt (monthlyNav data years today)).2

/-! ### Concrete sample data used by witnesses -/

/-- Sample one-point NAV series. -/
def exData : List NavObs := [⟨0, 10⟩]

/-- Sample fund: Alpha sponsor, safe Equity, top consistency score. -/
def fundA1 : Fund := ⟨"A1", "Alpha Growth", "Equity", "Moderate", 5, 5, 12⟩

/-- Sample fund: same Alpha sponsor, safe Equity, lower consistency score. -/
def fundA2 : Fund := ⟨"A2", "Alpha Value", "Equity", "Moderate", 5, 4, 11⟩

/-- Sample two-fund universe sharing one sponsor. -/
def exUniverse : List Fund := [fundA1, fundA2]

/-- Sample two-goal sequence with identical long horizons. -/
def exGoals : List Goal := [⟨"g1", 500000, 10⟩, ⟨"g2", 500000, 10⟩]

/-! ### Helper lemmas -/

/-- The assumed annual return is always one of the three branch constants. -/
lemma strategyOf_ret_mem (yrs : Nat) :
    (strategyOf yrs).2 = 7 ∨ (strategyOf yrs).2 = 10 ∨ (strategyOf yrs).2 = 13 := by
  unfold strategyOf
  split_ifs <;> norm_num

/-- The assumed annual return is always positive. -/
lemma strategyOf_ret_pos (yrs : Nat) : 0 < (strategyOf yrs).2 := by
  rcases strategyOf_ret_mem yrs with h | h | h <;> rw [h] <;> norm_num

/-- The annuity denominator is positive for every horizon of at least a year. -/
lemma denom_pos (yrs : Nat) (h : 1 ≤ yrs) :
    0 < (1 + (strategyOf yrs).2 / 1200) ^ (yrs * 12) - 1 := by
  have hr : 0 < (strategyOf yrs).2 / 1200 := by
    have := strategyOf_ret_pos yrs
    positivity
  have h1 : 1 < 1 + (strategyOf yrs).2 / 1200 := by linarith
  have h2 : 1 < (1 + (strategyOf yrs).2 / 1200) ^ (yrs * 12) :=
    one_lt_pow₀ h1 (by omega)
  linarith

/-- Claim C1: for every goal in a planning run the per-goal output satisfies
the tax-estimate identity — `invested = contribution * n`,
`est_gain = target - invested`, and the estimated tax is
`(est_gain - 125000) * 0.125` when `est_gain > 125000` and `0` otherwise. -/
theorem c1_estimated_tax_formula (df : List Fund) (used : List String) (g : Goal) :
    (planGoal df used g).1.invested =
      (planGoal df used g).1.required_contribution * ((g.yrs * 12 : ℕ) : ℚ) ∧
    (planGoal df used g).1.est_gain = g.target - (planGoal df used g).1.invested ∧
    (planGoal df used g).1.estimated_tax =
      (if 125000 < (planGoal df used g).1.est_gain then
        ((planGoal df used g).1.est_gain - 125000) * 0.125
      else 0) := by
  refine ⟨rfl, rfl, ?_⟩
  simp only [planGoal, estimatedTax]

/-- Claim C2, counterexample: the code's SIP formula has no special case for a
zero monthly rate; evaluated at `r = 0` it yields `0` (the division collapses),
not `target / n`. -/
theorem c2_zero_rate_counterexample :
    sipOf 1200000 0 12 = 0 ∧ sipOf 1200000 0 12 ≠ 1200000 / 12 := by
  constructor <;> norm_num [sipOf]

/-- Claim C2, amended: the solver always evaluates the annuity quotient with no
`r = 0` special case, and the division is never by zero because the strategy
branch only ever supplies annual returns 7, 10 or 13, making the monthly rate
positive and the denominator positive for any horizon of at least a year. -/
theorem c2_rate_never_zero (yrs : Nat) (h : 1 ≤ yrs) (t : ℚ) :
    (strategyOf yrs).2 ∈ ([7, 10, 13] : List ℚ) ∧
    0 < (1 + (strategyOf yrs).2 / 1200) ^ (yrs * 12) - 1 ∧
    sipOf t ((strategyOf yrs).2 / 1200) (yrs * 12) *
        ((1 + (strategyOf yrs).2 / 1200) ^ (yrs * 12) - 1) =
      t * ((strategyOf yrs).2 / 1200) := by
  refine ⟨?_, denom_pos yrs h, ?_⟩
  · rcases strategyOf_ret_mem yrs with h2 | h2 | h2 <;> rw [h2] <;> simp
  · exact div_mul_cancel₀ _ (ne_of_gt (denom_pos yrs h))

/-- Witness for `c2_rate_never_zero` at horizon 1 and target 100. -/
theorem c2_rate_never_zero_witness :
    1 ≤ 1 ∧
    ((strategyOf 1).2 ∈ ([7, 10, 13] : List ℚ) ∧
     0 < (1 + (strategyOf 1).2 / 1200) ^ (1 * 12) - 1 ∧
     sipOf 100 ((strategyOf 1).2 / 1200) (1 * 12) *
         ((1 + (strategyOf 1).2 / 1200) ^ (1 * 12) - 1) =
       100 * ((strategyOf 1).2 / 1200)) :=
  ⟨le_refl 1, c2_rate_never_zero 1 (le_refl 1) 100⟩

/-- Claim C7: on every record of the cleaned universe, `is_safe` is `false`
exactly when the record is an Equity fund whose lower-cased name contains a
risky-sector keyword, and every non-Equity record is safe. -/
theorem c7_is_safe_characterization (raw : List Fund) (f : Fund)
    (h : f ∈ get_cleaned_data raw) :
    (is_safe f = false ↔
      f.category = "Equity" ∧ ∃ k ∈ risky_keywords, hasWord f.name k = true) ∧
    (f.category ≠ "Equity" → is_safe f = true) := by
  clear h
  constructor
  · by_cases hc : f.category = "Equity"
    · simp [is_safe, hc, List.any_eq_true]
    · simp [is_safe, hc]
  · intro hc
    simp [is_safe, hc]

/-- Witness for `c7_is_safe_characterization` on a one-fund universe. -/
theorem c7_is_safe_characterization_witness :
    fundA1 ∈ get_cleaned_data [fundA1] ∧
    ((is_safe fundA1 = false ↔
      fundA1.category = "Equity" ∧ ∃ k ∈ risky_keywords, hasWord fundA1.name k = true) ∧
     (fundA1.category ≠ "Equity" → is_safe fundA1 = true)) :=
  ⟨by decide, c7_is_safe_characterization [fundA1] fundA1 (by decide)⟩

/-- Claim C8: for the rate of any strategy branch and any horizon of at least a
year, the total contributed amount `contribution * n` strictly increases with
the target amount. -/
theorem c8_contribution_monotone (yrs : Nat) (h : 1 ≤ yrs) (a b : ℚ)
    (ha : 0 < a) (hab : a < b) :
    sipOf a ((strategyOf yrs).2 / 1200) (yrs * 12) * ((yrs * 12 : ℕ) : ℚ) <
      sipOf b ((strategyOf yrs).2 / 1200) (yrs * 12) * ((yrs * 12 : ℕ) : ℚ) := by
  have hr : 0 < (strategyOf yrs).2 / 1200 := by
    have := strategyOf_ret_pos yrs
    positivity
  have hd := denom_pos yrs h
  have hn : (0 : ℚ) < ((yrs * 12 : ℕ) : ℚ) := by
    have : yrs * 12 ≠ 0 := by omega
    exact_mod_cast Nat.pos_of_ne_zero this
  unfold sipOf
  rw [div_mul_eq_mul_div, div_mul_eq_mul_div]
  exact div_lt_div_of_pos_right
    (mul_lt_mul_of_pos_right (mul_lt_mul_of_pos_right hab hr) hn) hd

/-- Witness for `c8_contribution_monotone` at horizon 1 and targets 1 and 2. -/
theorem c8_contribution_monotone_witness :
    1 ≤ 1 ∧ (0 : ℚ) < 1 ∧ (1 : ℚ) < 2 ∧
    sipOf 1 ((strategyOf 1).2 / 1200) (1 * 12) * ((1 * 12 : ℕ) : ℚ) <
      sipOf 2 ((strategyOf 1).2 / 1200) (1 * 12) * ((1 * 12 : ℕ) : ℚ) :=
  ⟨le_refl 1, by norm_num, by norm_num,
    c8_contribution_monotone 1 (le_refl 1) 1 2 (by norm_num) (by norm_num)⟩

/-- Claim C9: the sponsor-diversity constraint is scoped to a single goal — on
the sample universe and two-goal run, each goal's selection holds one fund and
the two selected funds have distinct codes but the same sponsor token. -/
theorem c9_sponsor_scope_per_goal :
    (planRun exUniverse exGoals).map (fun rs => rs.selected_funds.map Fund.code)
        = [["A1"], ["A2"]] ∧
    (planRun exUniverse exGoals).map (fun rs => rs.selected_funds.map sponsor)
        = [["Alpha".toList], ["Alpha".toList]] := by
  constructor <;> rfl

/-- Claim C10: no record of the cleaned universe has a lower-cased name
containing any defunct-scheme keyword, "quarterly" and "reliance" included. -/
theorem c10_zombie_denylist (raw : List Fund) (f : Fund)
    (h : f ∈ get_cleaned_data raw) :
    ∀ z ∈ (["reliance", "fixed tenure", "dual advantage", "capital protection",
            "interval", "quarterly", "series"] : List String),
      hasWord f.name z = false := by
  have h2 := (List.mem_filter.mp h).2
  simp only [Bool.not_eq_eq_eq_not, Bool.not_true] at h2
  intro z hz
  have h3 : zombies.any (fun z => hasWord f.name z) = false := h2
  simpa using List.any_eq_false.mp h3 z (by simpa [zombies] using hz)

/-- Witness for `c10_zombie_denylist` on a one-fund universe at "quarterly". -/
theorem c10_zombie_denylist_witness :
    fundA1 ∈ get_cleaned_data [fundA1] ∧
    "quarterly" ∈ (["reliance", "fixed tenure", "dual advantage",
        "capital protection", "interval", "quarterly", "series"] : List String) ∧
    hasWord fundA1.name "quarterly" = false :=
  ⟨by decide, by decide,
    c10_zombie_denylist [fundA1] fundA1 (by decide) "quarterly" (by decide)⟩

/-- Invariant of the diversification loop: the global used list only grows,
every pick's code ends up in the returned used list, and every pick beyond the
initial partial result had a code outside the initial used list. -/
lemma selectFunds_inv (c : List Fund) :
    ∀ (u : List String) (r : List Fund) (a : List (List Char)),
    (∀ f ∈ r, f.code ∈ u) →
    (∀ x ∈ u, x ∈ (selectFunds c u r a).2) ∧
    (∀ f ∈ (selectFunds c u r a).1, f.code ∈ (selectFunds c u r a).2) ∧
    (∀ f ∈ (selectFunds c u r a).1, f ∈ r ∨ f.code ∉ u) := by
  induction c with
  | nil =>
    intro u r a hr
    exact ⟨fun x hx => hx, hr, fun f hf => Or.inl hf⟩
  | cons f rest ih =>
    intro u r a hr
    by_cases h2 : 2 ≤ r.length
    · simp only [selectFunds, if_pos h2]
      exact ⟨fun x hx => hx, hr, fun g hg => Or.inl hg⟩
    · by_cases hacc : f.code ∉ u ∧ sponsor f ∉ a
      · simp only [selectFunds, if_neg h2, if_pos hacc]
        have hr' : ∀ g ∈ r ++ [f], g.code ∈ u ++ [f.code] := by
          intro g hg
          rcases List.mem_append.mp hg with hg | hg
          · exact List.mem_append_left _ (hr g hg)
          · rw [List.mem_singleton.mp hg]
            exact List.mem_append_right _ (List.mem_singleton_self _)
        obtain ⟨i1, i2, i3⟩ := ih (u ++ [f.code]) (r ++ [f]) (a ++ [sponsor f]) hr'
        refine ⟨fun x hx => i1 x (List.mem_append_left _ hx), i2, ?_⟩
        intro g hg
        rcases i3 g hg with hg2 | hg2
        · rcases List.mem_append.mp hg2 with h3 | h3
          · exact Or.inl h3
          · rw [List.mem_singleton.mp h3]
            exact Or.inr hacc.1
        · exact Or.inr fun hm => hg2 (List.mem_append_left _ hm)
      · simp only [selectFunds, if_neg h2, if_neg hacc]
        exact ih u r a hr

/-- Invariant of the diversification loop: if the partial result is
sponsor-diverse and covered by the per-goal sponsor list, the final picks are
pairwise sponsor-diverse. -/
lemma selectFunds_sponsor (c : List Fund) :
    ∀ (u : List String) (r : List Fund) (a : List (List Char)),
    (∀ f ∈ r, sponsor f ∈ a) → r.Pairwise sponsorNe →
    (selectFunds c u r a).1.Pairwise sponsorNe := by
  induction c with
  | nil =>
    intro u r a _ hp
    exact hp
  | cons f rest ih =>
    intro u r a ha hp
    by_cases h2 : 2 ≤ r.length
    · simp only [selectFunds, if_pos h2]
      exact hp
    · by_cases hacc : f.code ∉ u ∧ sponsor f ∉ a
      · simp only [selectFunds, if_neg h2, if_pos hacc]
        apply ih
        · intro g hg
          rcases List.mem_append.mp hg with hg | hg
          · exact List.mem_append_left _ (ha g hg)
          · rw [List.mem_singleton.mp hg]
            exact List.mem_append_right _ (List.mem_singleton_self _)
        · refine List.pairwise_append.mpr ⟨hp, List.pairwise_singleton _ _, ?_⟩
          intro x hx y hy
          rw [List.mem_singleton.mp hy]
          exact fun he => hacc.2 (he ▸ ha x hx)
      · simp only [selectFunds, if_neg h2, if_neg hacc]
        exact ih u r a ha hp

/-- Selected funds of one planned goal are the diversification loop's picks. -/
lemma planGoal_selected (df : List Fund) (u : List String) (g : Goal) :
    (planGoal df u g).1.selected_funds =
      (selectFunds (candidatesOf df g.yrs) u [] []).1 := rfl

/-- Used list returned by one planned goal is the loop's updated used list. -/
lemma planGoal_used (df : List Fund) (u : List String) (g : Goal) :
    (planGoal df u g).2 = (selectFunds (candidatesOf df g.yrs) u [] []).2 := rfl

/-- Unfolding of the planning pass on a cons cell. -/
lemma planRunAux_cons (df : List Fund) (g : Goal) (gs : List Goal)
    (u : List String) :
    planRunAux df (g :: gs) u =
      ((planGoal df u g).1 :: (planRunAux df gs (planGoal df u g).2).1,
       (planRunAux df gs (planGoal df u g).2).2) := rfl

/-- Invariant of the planning pass: the global used list grows monotonically,
every selected code lands in the final used list and was fresh relative to the
incoming used list, results are pairwise code-disjoint, and each result is
sponsor-diverse. -/
lemma planRunAux_inv (df : List Fund) (goals : List Goal) :
    ∀ u : List String,
    (∀ x ∈ u, x ∈ (planRunAux df goals u).2) ∧
    (∀ rs ∈ (planRunAux df goals u).1, ∀ f ∈ rs.selected_funds,
        f.code ∈ (planRunAux df goals u).2 ∧ f.code ∉ u) ∧
    (planRunAux df goals u).1.Pairwise codesDisjoint ∧
    (∀ rs ∈ (planRunAux df goals u).1, rs.selected_funds.Pairwise sponsorNe) := by
  induction goals with
  | nil =>
    intro u
    exact ⟨fun x hx => hx, by simp [planRunAux], by simp [planRunAux],
      by simp [planRunAux]⟩
  | cons g gs ih =>
    intro u
    obtain ⟨s1, s2, s3⟩ :=
      selectFunds_inv (candidatesOf df g.yrs) u [] [] (by simp)
    have ssp :=
      selectFunds_sponsor (candidatesOf df g.yrs) u [] [] (by simp) List.Pairwise.nil
    obtain ⟨i1, i2, i3, i4⟩ := ih (planGoal df u g).2
    rw [planRunAux_cons]
    dsimp only
    refine ⟨?_, ?_, ?_, ?_⟩
    · intro x hx
      exact i1 x (by rw [planGoal_used]; exact s1 x hx)
    · intro rs hrs f hf
      rcases List.mem_cons.mp hrs with hrs | hrs
      · subst hrs
        rw [planGoal_selected] at hf
        have hcode : f.code ∈ (planGoal df u g).2 := by
          rw [planGoal_used]
          exact s2 f hf
        refine ⟨i1 _ hcode, ?_⟩
        rcases s3 f hf with h3 | h3
        · exact absurd h3 (List.not_mem_nil f)
        · exact h3
      · have h4 := i2 rs hrs f hf
        refine ⟨h4.1, fun hm => h4.2 ?_⟩
        rw [planGoal_used]
        exact s1 f.code hm
    · refine List.pairwise_cons.mpr ⟨?_, i3⟩
      intro rs hrs
      unfold codesDisjoint
      intro f hf f2 hf2
      rw [planGoal_selected] at hf
      have hcode : f.code ∈ (planGoal df u g).2 := by
        rw [planGoal_used]
        exact s2 f hf
      have hnc := (i2 rs hrs f2 hf2).2
      exact fun he => hnc (he ▸ hcode)
    · intro rs hrs
      rcases List.mem_cons.mp hrs with hrs | hrs
      · subst hrs
        rw [planGoal_selected]
        exact ssp
      · exact i4 rs hrs

/-- Claim C3: in any planning run, the per-goal results are pairwise disjoint
in fund codes (no fund recommended for two different goals), and every single
goal's picks are pairwise sponsor-diverse. -/
theorem c3_global_uniqueness_and_sponsor_diversity (df : List Fund)
    (goals : List Goal) :
    (planRun df goals).Pairwise codesDisjoint ∧
    (planRun df goals).Forall (fun rs => rs.selected_funds.Pairwise sponsorNe) := by
  obtain ⟨-, -, h3, h4⟩ := planRunAux_inv df goals []
  exact ⟨h3, List.forall_iff_forall_mem.mpr h4⟩

/-- Pointwise agreement of the code's Conservative filter with the spec row. -/
lemma conservativeFilter_iff (f : Fund) :
    conservativeFilter f = true ↔ specConservative f := by
  simp only [conservativeFilter, specConservative, Bool.or_eq_true, beq_iff_eq,
    Bool.and_eq_true, decide_eq_true_iff, Bool.not_eq_true']

/-- Pointwise agreement of the code's Balanced filter with the spec row. -/
lemma balancedFilter_iff (f : Fund) :
    balancedFilter f = true ↔ specBalanced f := by
  simp only [balancedFilter, specBalanced, Bool.and_eq_true, Bool.or_eq_true,
    bne_iff_ne]
  tauto

/-- Pointwise agreement of the code's Aggressive filter with the spec row. -/
lemma aggressiveFilter_iff (f : Fund) :
    aggressiveFilter f = true ↔ specAggressive f := by
  simp only [aggressiveFilter, specAggressive, Bool.and_eq_true, beq_iff_eq,
    Bool.not_eq_true', Bool.or_eq_false_iff]
  tauto

/-- Claim C4: each horizon bucket returns exactly the table's policy — the
branch's label and assumed return, the candidate set given by the table's
filter, and the output sorted by the table's key. -/
theorem c4_strategy_table :
    (∀ yrs : Nat, yrs ≤ 3 → ∀ df : List Fund, conservativePolicy yrs df) ∧
    (∀ yrs : Nat, 4 ≤ yrs → yrs ≤ 7 → ∀ df : List Fund, balancedPolicy yrs df) ∧
    (∀ yrs : Nat, 8 ≤ yrs → ∀ df : List Fund, aggressivePolicy yrs df) := by
  refine ⟨?_, ?_, ?_⟩
  · intro yrs h df
    unfold conservativePolicy strategyOf candidatesOf
    rw [if_pos h, if_pos h]
    refine ⟨rfl, ?_, List.sorted_insertionSort _ _⟩
    intro f
    rw [List.Perm.mem_iff (List.perm_insertionSort _ _), List.mem_filter,
      conservativeFilter_iff]
  · intro yrs h4 h7 df
    have h3 : ¬ yrs ≤ 3 := by omega
    unfold balancedPolicy strategyOf candidatesOf
    rw [if_neg h3, if_pos h7, if_neg h3, if_pos h7]
    refine ⟨rfl, ?_, List.sorted_insertionSort _ _⟩
    intro f
    rw [List.Perm.mem_iff (List.perm_insertionSort _ _), List.mem_filter,
      balancedFilter_iff]
  · intro yrs h8 df
    have h3 : ¬ yrs ≤ 3 := by omega
    have h7 : ¬ yrs ≤ 7 := by omega
    unfold aggressivePolicy strategyOf candidatesOf
    rw [if_neg h3, if_neg h7, if_neg h3, if_neg h7]
    refine ⟨rfl, ?_, List.sorted_insertionSort _ _⟩
    intro f
    rw [List.Perm.mem_iff (List.perm_insertionSort _ _), List.mem_filter,
      aggressiveFilter_iff]

/-- Witness for `c4_strategy_table`: one horizon per bucket on the sample
universe. -/
theorem c4_strategy_table_witness :
    (2 ≤ 3 ∧ conservativePolicy 2 exUniverse) ∧
    ((4 ≤ 5 ∧ 5 ≤ 7) ∧ balancedPolicy 5 exUniverse) ∧
    (8 ≤ 10 ∧ aggressivePolicy 10 exUniverse) :=
  ⟨⟨by norm_num, c4_strategy_table.1 2 (by norm_num) exUniverse⟩,
   ⟨⟨by norm_num, by norm_num⟩,
    c4_strategy_table.2.1 5 (by norm_num) (by norm_num) exUniverse⟩,
   ⟨by norm_num, c4_strategy_table.2.2 10 (by norm_num) exUniverse⟩⟩

/-- Closed form of the backtest purchase fold from any starting accumulator. -/
lemma simLoop_aux (amt : ℚ) (l : List NavObs) : ∀ p : ℚ × ℚ,
    l.foldl (fun acc o => (acc.1 + amt / o.nav, acc.2 + amt)) p =
      (p.1 + (l.map (fun o => amt / o.nav)).sum, p.2 + amt * l.length) := by
  induction l with
  | nil =>
    intro p
    simp
  | cons o t ih =>
    intro p
    simp only [List.foldl_cons, List.map_cons, List.sum_cons, List.length_cons, ih]
    simp only [Prod.mk.injEq]
    constructor
    · ring
    · push_cast
      ring

/-- Accumulated units are the sum of `amt / price` over the retained months. -/
lemma simLoop_fst (amt : ℚ) (l : List NavObs) :
    (simLoop amt l).1 = (l.map (fun o => amt / o.nav)).sum := by
  simp [simLoop, simLoop_aux]

/-- Accumulated invested amount is `amt` times the number of retained months. -/
lemma simLoop_snd (amt : ℚ) (l : List NavObs) :
    (simLoop amt l).2 = amt * l.length := by
  simp [simLoop, simLoop_aux]

/-- Resampling a non-empty window keeps at least its first observation. -/
lemma resampleFirst_ne_nil {l : List NavObs} (h : l ≠ []) :
    resampleFirst l ≠ [] := by
  cases l with
  | nil => exact absurd rfl h
  | cons o t => simp [resampleFirst]

/-- Filtered window of the backtest is sorted ascending by date. -/
lemma windowNav_sorted (data : List NavObs) (years : Nat) (today : Int) :
    (windowNav data years today).Sorted dateLe := by
  unfold windowNav sortedNav
  exact List.Pairwise.filter _ (List.sorted_insertionSort dateLe data)

/-- Last element of a date-sorted observation list carries the maximal date. -/
lemma sorted_getLast?_max :
    ∀ {l : List NavObs}, l.Sorted dateLe →
      ∀ {o : NavObs}, l.getLast? = some o → ∀ p ∈ l, p.date ≤ o.date := by
  intro l
  induction l with
  | nil =>
    intro _ o ho
    simp at ho
  | cons a t ih =>
    intro hs o ho p hp
    cases t with
    | nil =>
      have ha : a = o := by simpa using ho
      have hpa : p = a := by simpa using hp
      rw [hpa, ha]
    | cons b t2 =>
      rw [List.getLast?_cons_cons] at ho
      have hs' := List.sorted_cons.mp hs
      rcases List.mem_cons.mp hp with hp | hp
      · subst hp
        have hb : b.date ≤ o.date := ih hs'.2 ho b (List.mem_cons_self b t2)
        exact le_trans (hs'.1 b (List.mem_cons_self b t2)) hb
      · exact ih hs'.2 ho p hp

/-- Claim C6: the backtest returns the explicit "unavailable" result (`none`)
whenever the source data is empty, the filtered window is empty, or the total
invested amount is zero; being a total function, it never propagates an
exception. -/
theorem c6_unavailable_paths (data : List NavObs) (amt : ℚ) (years : Nat)
    (today : Int)
    (h : data = [] ∨ windowNav data years today = [] ∨
         amt * ((monthlyNav data years today).length : ℚ) = 0) :
    get_sip_history data amt years today = none := by
  by_cases hd : data = []
  · simp [get_sip_history, hd]
  · rcases h with h | h | h
    · exact absurd h hd
    · simp [get_sip_history, hd, h]
    · have h0 : (simLoop amt (resampleFirst (windowNav data years today))).2 = 0 := by
        rw [simLoop_snd]
        exact h
      cases hlast : (windowNav data years today).getLast? with
      | none => simp [get_sip_history, hd, hlast]
      | some o => simp [get_sip_history, hd, hlast, h0]

/-- Witness for `c6_unavailable_paths` on an empty source series. -/
theorem c6_unavailable_paths_witness :
    (([] : List NavObs) = [] ∨ windowNav [] 1 0 = [] ∨
      (5 : ℚ) * ((monthlyNav [] 1 0).length : ℚ) = 0) ∧
    get_sip_history [] 5 1 0 = none :=
  ⟨Or.inl rfl, c6_unavailable_paths [] 5 1 0 (Or.inl rfl)⟩

/-- Claim C5: on a non-empty filtered window with a non-zero contribution, the
backtest accumulates `amt / price` units and `amt` invested per retained
monthly price, and its current value multiplies the accumulated units by the
last — maximal-date — raw observation of the filtered window, not a point of
the monthly resample. -/
theorem c5_final_value_uses_latest_raw (data : List NavObs) (amt : ℚ)
    (years : Nat) (today : Int)
    (hw : windowNav data years today ≠ []) (hamt : amt ≠ 0) :
    ∃ o, (windowNav data years today).getLast? = some o ∧
      (∀ p ∈ windowNav data years today, p.date ≤ o.date) ∧
      investedOf amt data years today =
        amt * ((monthlyNav data years today).length : ℚ) ∧
      unitsOf amt data years today =
        ((monthlyNav data years today).map (fun p => amt / p.nav)).sum ∧
      get_sip_history data amt years today =
        some (investedOf amt data years today,
              unitsOf amt data years today * o.nav,
              unitsOf amt data years today * o.nav - investedOf amt data years today,
              (unitsOf amt data years today * o.nav /
                  investedOf amt data years today - 1) * 100) := by
  have hd : data ≠ [] := by
    intro h
    apply hw
    rw [h]
    rfl
  obtain ⟨o, ho⟩ : ∃ o, (windowNav data years today).getLast? = some o := by
    cases hl : (windowNav data years today).getLast? with
    | none => exact absurd (by simpa using hl) hw
    | some o => exact ⟨o, rfl⟩
  have hlen : monthlyNav data years today ≠ [] := resampleFirst_ne_nil hw
  have hinv : (simLoop amt (resampleFirst (windowNav data years today))).2 ≠ 0 := by
    rw [simLoop_snd]
    apply mul_ne_zero hamt
    have hz : (resampleFirst (windowNav data years today)).length ≠ 0 :=
      fun hz => hlen (List.length_eq_zero.mp hz)
    exact_mod_cast hz
  refine ⟨o, ho, sorted_getLast?_max (windowNav_sorted data years today) ho,
    simLoop_snd _ _, simLoop_fst _ _, ?_⟩
  simp only [get_sip_history, if_neg hd, ho, if_neg hinv]
  rfl

/-- Witness for `c5_final_value_uses_latest_raw` on the one-point series. -/
theorem c5_final_value_uses_latest_raw_witness :
    (windowNav exData 1 0 ≠ [] ∧ (5 : ℚ) ≠ 0) ∧
    (∃ o, (windowNav exData 1 0).getLast? = some o ∧
      (∀ p ∈ windowNav exData 1 0, p.date ≤ o.date) ∧
      investedOf 5 exData 1 0 = 5 * ((monthlyNav exData 1 0).length : ℚ) ∧
      unitsOf 5 exData 1 0 = ((monthlyNav exData 1 0).map (fun p => 5 / p.nav)).sum ∧
      get_sip_history exData 5 1 0 =
        some (investedOf 5 exData 1 0,
              unitsOf 5 exData 1 0 * o.nav,
              unitsOf 5 exData 1 0 * o.nav - investedOf 5 exData 1 0,
              (unitsOf 5 exData 1 0 * o.nav / investedOf 5 exData 1 0 - 1) * 100)) :=
  ⟨⟨by decide, by norm_num⟩,
    c5_final_value_uses_latest_raw exData 5 1 0 (by decide) (by norm_num)⟩
